import Mathlib

/-!
# Verification of the OpenFlow SDK client (`src/index.js`)

A shallow embedding of the OpenFlow JavaScript SDK: the client constructor,
`run`, `_executeWorkflow`, `_pollForCompletion`, `_getWorkflowState` and
`getState`.  Network effects are made explicit: the remote server is modelled
as an environment (`Env`) supplying the submission response and the response
to each numbered status query, and every function returns, next to its
result, the list of network calls (`NetCall`) it issued, in order.

JavaScript truthiness on the option values (`x || default`) is modelled
exactly: `0`, `""`, `null`/`undefined` are falsy.  The generic `Error`
objects thrown by the source are classified into the taxonomy the code's
message strings follow (configuration / transport / execution / timeout),
each carrying the exact message string the source builds.
-/

/-- A minimal JSON value type, for workflow inputs/outputs that the SDK
passes through opaquely. -/
inductive Json where
  | null
  | str (s : String)
  | num (n : Int)
  | bool (b : Bool)
  | arr (xs : List Json)
  | obj (fs : List (String × Json))

/-- JavaScript truthiness of an optional string value (`undefined`/`null`
and `""` are falsy). -/
def truthy : Option String → Bool
  | none => false
  | some s => !(s == "")

/-- `x || d` for an optional string option value. -/
def jsOrStr (x : Option String) (d : String) : String :=
  match x with
  | none => d
  | some s => if s == "" then d else s

/-- `x || d` for an optional numeric option value (`0` is falsy). -/
def jsOrNat (x : Option Nat) (d : Nat) : Nat :=
  match x with
  | none => d
  | some n => if n == 0 then d else n

/-- `x || null` as in `this.privateKey = options.privateKey || null`. -/
def jsOrNull (x : Option String) : Option String :=
  if truthy x then x else none

/-- `e || "Unknown error"` on an optional error string. -/
def jsOrElse (x : Option String) (d : String) : String :=
  match x with
  | none => d
  | some s => if s == "" then d else s

/-- The options object accepted by the `OpenFlow` constructor.  `none`
models an absent (`undefined`) field. -/
structure Options where
  privateKey : Option String := none
  baseUrl : Option String := none
  pollInterval : Option Nat := none
  maxPollAttempts : Option Nat := none

/-- The constructed client: the instance fields set by the constructor.
`x402Fetch` records whether the payment-signing fetch wrapper was
installed (`true` iff `privateKey` was truthy). -/
structure OpenFlow where
  privateKey : Option String
  baseUrl : String
  pollInterval : Nat
  maxPollAttempts : Nat
  x402Fetch : Bool

/-- The `OpenFlow` constructor (`src/index.js` lines 18–36): each option is
defaulted through JavaScript `||`, and the x402 fetch wrapper is installed
exactly when a (truthy) private key is present. -/
def OpenFlow.create (o : Options) : OpenFlow :=
  let pk := jsOrNull o.privateKey
  { privateKey := pk
    baseUrl := jsOrStr o.baseUrl "https://workflow-api.openflow.sh"
    pollInterval := jsOrNat o.pollInterval 2000
    maxPollAttempts := jsOrNat o.maxPollAttempts 150
    x402Fetch := truthy pk }

/-- The config object of `run`: `{input, xPayment, testMode}`, each possibly
absent. -/
structure RunConfig where
  input : Option Json := none
  xPayment : Option String := none
  testMode : Option Bool := none

/-- The execution handle parsed from a successful submission response
(`_executeWorkflow` lines 131–138). -/
structure ExecutionHandle where
  executionId : String
  workflowId : String
  ipfsCid : String
  pieceCid : String
  provider : String
  status : String

/-- The nested `data` payload of a workflow state (passed through verbatim
by `_getWorkflowState`). -/
structure StateData where
  status : String
  workflowId : String
  executionId : String
  input : Json
  output : Json
  startTime : String
  completedTime : String
  error : Option String

/-- The workflow state parsed from a successful status-query response
(`_getWorkflowState` lines 201–207). -/
structure WorkflowState where
  executionId : String
  workflowId : String
  ipfsCid : String
  status : String
  data : StateData

/-- The result object returned by `run` (lines 68–77). -/
structure WorkflowResult where
  executionId : String
  workflowId : String
  status : String
  output : Json
  ipfsCid : String
  pieceCid : String
  provider : String
  completedTime : String

/-- The errors the SDK throws, classified by throw site following the
message strings of the source (`Error` objects in JavaScript). -/
inductive OFError where
  | configurationError (msg : String)
  | transportError (msg : String)
  | executionError (msg : String)
  | timeoutError (msg : String)

/-- The server's response to the submission POST: HTTP-level fields plus
the parsed JSON payload fields `_executeWorkflow` reads. -/
structure SubmitResp where
  ok : Bool
  httpStatus : Nat
  errorText : String
  success : Bool
  error : Option String
  executionId : String
  workflowId : String
  ipfsCid : String
  pieceCid : String
  provider : String
  status : String

/-- The server's response to one status-query GET: HTTP-level fields plus
the parsed JSON payload fields `_getWorkflowState` reads. -/
structure StateResp where
  ok : Bool
  httpStatus : Nat
  errorText : String
  success : Bool
  error : Option String
  executionId : String
  workflowId : String
  ipfsCid : String
  status : String
  data : StateData

/-- The network environment of one `run`/`getState` call: the submission
response, and the response to the status query made on attempt `i`
(1-indexed, matching the source's `attempts` counter). -/
structure Env where
  submitResp : SubmitResp
  stateResps : Nat → StateResp

/-- An observable network call.  A `post` records the URL, whether it went
through the signing wrapper (`x402Fetch`), the manual `X-Payment` header of
the plain-fetch branch, and the JSON body as a field list.  A `get` records
the URL; the source's status-query and its `getState` GET send only a
`Content-Type` header — no `X-Payment` header exists on any GET. -/
inductive NetCall where
  | post (url : String) (signed : Bool) (xPaymentHeader : Option String)
         (body : List (String × Json))
  | get (url : String)

/-- The JSON body of a call (`[]` for a GET, which has no body). -/
def NetCall.body : NetCall → List (String × Json)
  | .post _ _ _ b => b
  | .get _ => []

/-- The single POST issued by `_executeWorkflow` (lines 84–114): endpoint
selected by `testMode` — note the source concatenates the literal string
`"/workflow/:slug"` without substituting `slug` — body `{slug, input}`,
sent through the x402 wrapper when installed, else through plain fetch
with the manual `X-Payment` header. -/
def submitCall (c : OpenFlow) (slug : String) (input : Json)
    (xPayment : Option String) (testMode : Bool) : NetCall :=
  let endpoint := if testMode then "/test-workflow" else "/workflow/:slug"
  let url := c.baseUrl ++ endpoint
  let body := [("slug", Json.str slug), ("input", input)]
  if c.x402Fetch then
    NetCall.post url true none body
  else
    NetCall.post url false xPayment body

/-- Response handling of `_executeWorkflow` (lines 116–138): non-ok HTTP
status → transport error with status and body text; payload `success`
false → execution error with the server message; else parse the handle. -/
def submitOutcome (r : SubmitResp) : Except OFError ExecutionHandle :=
  if !r.ok then
    .error (.transportError
      ("Workflow execution failed: " ++ toString r.httpStatus ++ " - " ++ r.errorText))
  else if !r.success then
    .error (.executionError
      ("Workflow execution failed: " ++ jsOrElse r.error "Unknown error"))
  else
    .ok { executionId := r.executionId, workflowId := r.workflowId,
          ipfsCid := r.ipfsCid, pieceCid := r.pieceCid,
          provider := r.provider, status := r.status }

/-- `_executeWorkflow` (lines 84–139): one POST (always issued, whatever
the response), then response handling. -/
def OpenFlow.executeWorkflow (c : OpenFlow) (env : Env) (slug : String)
    (input : Json) (xPayment : Option String) (testMode : Bool) :
    Except OFError ExecutionHandle × List NetCall :=
  (submitOutcome env.submitResp, [submitCall c slug input xPayment testMode])

/-- The GET issued for a status query of `executionId`
(`_getWorkflowState` lines 177–184). -/
def queryCall (c : OpenFlow) (executionId : String) : NetCall :=
  NetCall.get (c.baseUrl ++ "/workflow-state/" ++ executionId)

/-- Response handling of `_getWorkflowState` (lines 186–207): non-ok HTTP
status → transport error; payload `success` false → execution error; else
parse the workflow state. -/
def queryOutcome (r : StateResp) : Except OFError WorkflowState :=
  if !r.ok then
    .error (.transportError
      ("Failed to get workflow state: " ++ toString r.httpStatus ++ " - " ++ r.errorText))
  else if !r.success then
    .error (.executionError
      ("Failed to get workflow state: " ++ jsOrElse r.error "Unknown error"))
  else
    .ok { executionId := r.executionId, workflowId := r.workflowId,
          ipfsCid := r.ipfsCid, status := r.status, data := r.data }

/-- `_getWorkflowState` (lines 176–208): one GET (always issued), then
response handling. -/
def OpenFlow.getWorkflowState (c : OpenFlow) (r : StateResp)
    (executionId : String) : Except OFError WorkflowState × NetCall :=
  (queryOutcome r, queryCall c executionId)

/-- The `while (attempts < maxPollAttempts)` loop of `_pollForCompletion`
(lines 145–170), as structural recursion on the remaining attempts
(`fuel = maxPollAttempts - attempts`): query, return on `"completed"`,
throw on `"failed"`, otherwise sleep (pure in this model) and continue;
fuel exhausted → timeout error naming `maxPollAttempts`. -/
def pollAux (c : OpenFlow) (env : Env) (executionId : String) :
    Nat → Nat → Except OFError WorkflowState × List NetCall
  | _, 0 =>
    (.error (.timeoutError
      ("Workflow execution timeout after " ++ toString c.maxPollAttempts ++ " attempts")), [])
  | attempts, fuel + 1 =>
    match OpenFlow.getWorkflowState c (env.stateResps (attempts + 1)) executionId with
    | (.error e, call) => (.error e, [call])
    | (.ok state, call) =>
      if state.status == "completed" then
        (.ok state, [call])
      else if state.status == "failed" then
        (.error (.executionError
          ("Workflow execution failed: " ++ jsOrElse state.data.error "Unknown error")), [call])
      else
        let rest := pollAux c env executionId (attempts + 1) fuel
        (rest.1, call :: rest.2)

/-- `_pollForCompletion` (lines 145–170): the poll loop started at
`attempts = 0` with `maxPollAttempts` attempts available. -/
def OpenFlow.pollForCompletion (c : OpenFlow) (env : Env)
    (executionId : String) : Except OFError WorkflowState × List NetCall :=
  pollAux c env executionId 0 c.maxPollAttempts

/-- The destructuring default `input = {}` of `run` line 48. -/
def runInput (cfg : RunConfig) : Json :=
  match cfg.input with
  | none => Json.obj []
  | some j => j

/-- The destructuring default `testMode = true` of `run` line 48. -/
def runTestMode (cfg : RunConfig) : Bool :=
  match cfg.testMode with
  | none => true
  | some b => b

/-- `run` (lines 47–78): payment-method validation before any network
call, then `_executeWorkflow`, then `_pollForCompletion` on the returned
`executionId`, then projection to the `WorkflowResult`. -/
def OpenFlow.run (c : OpenFlow) (env : Env) (slug : String)
    (cfg : RunConfig) : Except OFError WorkflowResult × List NetCall :=
  let input := runInput cfg
  let xPayment := cfg.xPayment
  let testMode := runTestMode cfg
  if !(truthy c.privateKey) && !(truthy xPayment) then
    (.error (.configurationError
      ("Either privateKey must be provided in OpenFlow constructor or " ++
       "xPayment header must be provided in config")), [])
  else
    let ex := c.executeWorkflow env slug input xPayment testMode
    match ex.1 with
    | .error e => (.error e, ex.2)
    | .ok execution =>
      let p := c.pollForCompletion env execution.executionId
      match p.1 with
      | .error e => (.error e, ex.2 ++ p.2)
      | .ok result =>
        (.ok { executionId := execution.executionId
               workflowId := execution.workflowId
               status := result.status
               output := result.data.output
               ipfsCid := result.ipfsCid
               pieceCid := execution.pieceCid
               provider := execution.provider
               completedTime := result.data.completedTime }, ex.2 ++ p.2)

/-- `getState` (lines 223–225): a single `_getWorkflowState` call, with no
payment-precondition check and no loop. -/
def OpenFlow.getState (c : OpenFlow) (r : StateResp) (executionId : String) :
    Except OFError WorkflowState × List NetCall :=
  let q := OpenFlow.getWorkflowState c r executionId
  (q.1, [q.2])

/-! ## Derived forms and poll-loop lemmas -/

/-- The workflow state parsed from a successful status-query response. -/
def stateOfResp (r : StateResp) : WorkflowState :=
  { executionId := r.executionId, workflowId := r.workflowId,
    ipfsCid := r.ipfsCid, status := r.status, data := r.data }

/-- A status-query response that succeeds at both the HTTP and payload
level and carries a non-terminal status: the poll loop continues on it. -/
def respOkNonTerminal (r : StateResp) : Prop :=
  r.ok = true ∧ r.success = true ∧ r.status ≠ "completed" ∧ r.status ≠ "failed"

/-! ### Concrete fixtures (a mock server, mirroring the spec's scenarios) -/

/-- `data` payload of an in-flight execution. -/
def processingData : StateData :=
  { status := "processing", workflowId := "wf1", executionId := "e1",
    input := Json.obj [("x", Json.num 1)], output := Json.null,
    startTime := "t0", completedTime := "", error := none }

/-- A status query answered with `status = "processing"`. -/
def processingResp : StateResp :=
  { ok := true, httpStatus := 200, errorText := "", success := true,
    error := none, executionId := "e1", workflowId := "wf1",
    ipfsCid := "cid-proc", status := "processing", data := processingData }

/-- `data` payload of a completed execution with output `{"y": 2}`. -/
def completedData : StateData :=
  { status := "completed", workflowId := "wf1", executionId := "e1",
    input := Json.obj [("x", Json.num 1)],
    output := Json.obj [("y", Json.num 2)],
    startTime := "t0", completedTime := "t9", error := none }

/-- A status query answered with `status = "completed"`. -/
def completedResp : StateResp :=
  { ok := true, httpStatus := 200, errorText := "", success := true,
    error := none, executionId := "e1", workflowId := "wf1",
    ipfsCid := "cid-done", status := "completed", data := completedData }

/-- `data` payload of a failed execution with `error = "bad input"`. -/
def failedData : StateData :=
  { status := "failed", workflowId := "wf1", executionId := "e1",
    input := Json.obj [("x", Json.num 1)], output := Json.null,
    startTime := "t0", completedTime := "", error := some "bad input" }

/-- A status query answered with `status = "failed"`. -/
def failedResp : StateResp :=
  { ok := true, httpStatus := 200, errorText := "", success := true,
    error := none, executionId := "e1", workflowId := "wf1",
    ipfsCid := "cid-fail", status := "failed", data := failedData }

/-- A status query answered with HTTP 500. -/
def badHttpResp : StateResp :=
  { ok := false, httpStatus := 500, errorText := "boom", success := false,
    error := none, executionId := "", workflowId := "", ipfsCid := "",
    status := "", data := processingData }

/-- A successful submission acknowledgment for execution `"e1"`. -/
def okSubmitResp : SubmitResp :=
  { ok := true, httpStatus := 200, errorText := "", success := true,
    error := none, executionId := "e1", workflowId := "wf1",
    ipfsCid := "cid-sub", pieceCid := "piece1", provider := "prov1",
    status := "submitted" }

/-- A client with a signing key, a local base URL and `maxPollAttempts = 3`. -/
def demoClient : OpenFlow :=
  OpenFlow.create
    { privateKey := some "0xabc", baseUrl := some "http://localhost:3000",
      pollInterval := some 10, maxPollAttempts := some 3 }

/-- A client constructed with no options at all. -/
def keylessClient : OpenFlow := OpenFlow.create {}

/-- Environment: poll 1 is `"processing"`, poll 2 is `"completed"`. -/
def envCompletedAt2 : Env :=
  { submitResp := okSubmitResp,
    stateResps := fun i => if i == 2 then completedResp else processingResp }

/-- Environment: every poll is `"processing"`. -/
def envAllProcessing : Env :=
  { submitResp := okSubmitResp, stateResps := fun _ => processingResp }

/-- Environment: every poll is `"failed"` (so poll 1 already fails). -/
def envFailedAt1 : Env :=
  { submitResp := okSubmitResp, stateResps := fun _ => failedResp }

/-- Environment: poll 1 is `"processing"`, poll 2 is an HTTP 500. -/
def envBadHttpAt2 : Env :=
  { submitResp := okSubmitResp,
    stateResps := fun i => if i == 2 then badHttpResp else processingResp }

theorem queryOutcome_ok (r : StateResp) (h1 : r.ok = true)
    (h2 : r.success = true) : queryOutcome r = .ok (stateOfResp r) := by
  simp [queryOutcome, h1, h2, stateOfResp]

theorem pollAux_step (c : OpenFlow) (env : Env) (eid : String)
    (attempts fuel : Nat) (h : respOkNonTerminal (env.stateResps (attempts + 1))) :
    pollAux c env eid attempts (fuel + 1) =
      ((pollAux c env eid (attempts + 1) fuel).1,
       queryCall c eid :: (pollAux c env eid (attempts + 1) fuel).2) := by
  obtain ⟨h1, h2, h3, h4⟩ := h
  simp [pollAux, OpenFlow.getWorkflowState, queryOutcome_ok _ h1 h2, stateOfResp, h3, h4]

theorem pollAux_shift (c : OpenFlow) (env : Env) (eid : String) :
    ∀ (j attempts fuel : Nat), j ≤ fuel →
      (∀ i, i < j → respOkNonTerminal (env.stateResps (attempts + 1 + i))) →
      pollAux c env eid attempts fuel =
        ((pollAux c env eid (attempts + j) (fuel - j)).1,
         List.replicate j (queryCall c eid) ++
           (pollAux c env eid (attempts + j) (fuel - j)).2) := by
  intro j
  induction j with
  | zero => intro attempts fuel _ _; simp
  | succ j ih =>
    intro attempts fuel hj hnt
    obtain ⟨f, rfl⟩ : ∃ f, fuel = f + 1 := ⟨fuel - 1, by omega⟩
    have h0 : respOkNonTerminal (env.stateResps (attempts + 1)) := by
      have := hnt 0 (Nat.succ_pos j)
      simpa using this
    rw [pollAux_step c env eid attempts f h0]
    have hrec := ih (attempts + 1) f (by omega) (by
      intro i hi
      have := hnt (i + 1) (by omega)
      have harith : attempts + 1 + (i + 1) = attempts + 1 + 1 + i := by omega
      rwa [harith] at this)
    rw [hrec]
    have h1 : attempts + 1 + j = attempts + (j + 1) := by omega
    have h2 : f - j = f + 1 - (j + 1) := by omega
    rw [h1, h2, List.replicate_succ, List.cons_append]

theorem pollForCompletion_completed_at (c : OpenFlow) (env : Env)
    (eid : String) (k : Nat) (hk : 1 ≤ k) (hmax : k ≤ c.maxPollAttempts)
    (hpre : ∀ i, 1 ≤ i → i < k → respOkNonTerminal (env.stateResps i))
    (h1 : (env.stateResps k).ok = true) (h2 : (env.stateResps k).success = true)
    (h3 : (env.stateResps k).status = "completed") :
    c.pollForCompletion env eid =
      (.ok (stateOfResp (env.stateResps k)),
       List.replicate k (queryCall c eid)) := by
  obtain ⟨j, rfl⟩ : ∃ j, k = j + 1 := ⟨k - 1, by omega⟩
  unfold OpenFlow.pollForCompletion
  rw [pollAux_shift c env eid j 0 c.maxPollAttempts (by omega) (by
    intro i hi
    have h := hpre (i + 1) (by omega) (by omega)
    have hidx : (0 : Nat) + 1 + i = i + 1 := by omega
    rw [hidx]
    exact h)]
  obtain ⟨m, hm⟩ : ∃ m, c.maxPollAttempts - j = m + 1 := ⟨c.maxPollAttempts - j - 1, by omega⟩
  rw [hm]
  have hidx : 0 + j + 1 = j + 1 := by omega
  simp only [pollAux, OpenFlow.getWorkflowState, hidx, Nat.zero_add]
  rw [queryOutcome_ok _ h1 h2]
  simp [stateOfResp, h3, List.replicate_succ' (n := j)]

theorem pollForCompletion_failed_at (c : OpenFlow) (env : Env)
    (eid : String) (k : Nat) (hk : 1 ≤ k) (hmax : k ≤ c.maxPollAttempts)
    (hpre : ∀ i, 1 ≤ i → i < k → respOkNonTerminal (env.stateResps i))
    (h1 : (env.stateResps k).ok = true) (h2 : (env.stateResps k).success = true)
    (h3 : (env.stateResps k).status = "failed") :
    c.pollForCompletion env eid =
      (.error (.executionError
        ("Workflow execution failed: " ++
         jsOrElse (env.stateResps k).data.error "Unknown error")),
       List.replicate k (queryCall c eid)) := by
  obtain ⟨j, rfl⟩ : ∃ j, k = j + 1 := ⟨k - 1, by omega⟩
  unfold OpenFlow.pollForCompletion
  rw [pollAux_shift c env eid j 0 c.maxPollAttempts (by omega) (by
    intro i hi
    have h := hpre (i + 1) (by omega) (by omega)
    have hidx : (0 : Nat) + 1 + i = i + 1 := by omega
    rw [hidx]
    exact h)]
  obtain ⟨m, hm⟩ : ∃ m, c.maxPollAttempts - j = m + 1 := ⟨c.maxPollAttempts - j - 1, by omega⟩
  rw [hm]
  have hidx : 0 + j + 1 = j + 1 := by omega
  simp only [pollAux, OpenFlow.getWorkflowState, hidx, Nat.zero_add]
  rw [queryOutcome_ok _ h1 h2]
  simp [stateOfResp, h3, List.replicate_succ' (n := j)]

theorem pollForCompletion_query_error_at (c : OpenFlow) (env : Env)
    (eid : String) (k : Nat) (e : OFError)
    (hk : 1 ≤ k) (hmax : k ≤ c.maxPollAttempts)
    (hpre : ∀ i, 1 ≤ i → i < k → respOkNonTerminal (env.stateResps i))
    (herr : queryOutcome (env.stateResps k) = .error e) :
    c.pollForCompletion env eid =
      (.error e, List.replicate k (queryCall c eid)) := by
  obtain ⟨j, rfl⟩ : ∃ j, k = j + 1 := ⟨k - 1, by omega⟩
  unfold OpenFlow.pollForCompletion
  rw [pollAux_shift c env eid j 0 c.maxPollAttempts (by omega) (by
    intro i hi
    have h := hpre (i + 1) (by omega) (by omega)
    have hidx : (0 : Nat) + 1 + i = i + 1 := by omega
    rw [hidx]
    exact h)]
  obtain ⟨m, hm⟩ : ∃ m, c.maxPollAttempts - j = m + 1 := ⟨c.maxPollAttempts - j - 1, by omega⟩
  rw [hm]
  have hidx : 0 + j + 1 = j + 1 := by omega
  simp only [pollAux, OpenFlow.getWorkflowState, hidx, Nat.zero_add]
  rw [herr]
  simp [List.replicate_succ' (n := j)]

theorem pollForCompletion_timeout (c : OpenFlow) (env : Env) (eid : String)
    (hpre : ∀ i, 1 ≤ i → i ≤ c.maxPollAttempts → respOkNonTerminal (env.stateResps i)) :
    c.pollForCompletion env eid =
      (.error (.timeoutError
        ("Workflow execution timeout after " ++ toString c.maxPollAttempts ++ " attempts")),
       List.replicate c.maxPollAttempts (queryCall c eid)) := by
  unfold OpenFlow.pollForCompletion
  rw [pollAux_shift c env eid c.maxPollAttempts 0 c.maxPollAttempts (by omega) (by
    intro i hi
    have h := hpre (i + 1) (by omega) (by omega)
    have hidx : (0 : Nat) + 1 + i = i + 1 := by omega
    rw [hidx]
    exact h)]
  have hz : c.maxPollAttempts - c.maxPollAttempts = 0 := by omega
  rw [hz]
  simp [pollAux]

theorem pollAux_ok_completed (c : OpenFlow) (env : Env) (eid : String) :
    ∀ (fuel attempts : Nat) (state : WorkflowState) (t : List NetCall),
      pollAux c env eid attempts fuel = (.ok state, t) → state.status = "completed" := by
  intro fuel
  induction fuel with
  | zero => intro attempts state t h; simp [pollAux] at h
  | succ fuel ih =>
    intro attempts state t h
    simp only [pollAux, OpenFlow.getWorkflowState] at h
    rcases hq : queryOutcome (env.stateResps (attempts + 1)) with e | st
    · rw [hq] at h; simp at h
    · rw [hq] at h
      simp only at h
      by_cases hc : st.status == "completed"
      · rw [if_pos hc] at h
        injection h with hfst hsnd
        injection hfst with hst
        rw [← hst]
        exact eq_of_beq hc
      · rw [if_neg hc] at h
        by_cases hf : st.status == "failed"
        · rw [if_pos hf] at h
          injection h with hfst hsnd
          exact absurd hfst (by simp)
        · rw [if_neg hf] at h
          injection h with hfst hsnd
          have hp : pollAux c env eid (attempts + 1) fuel =
              (.ok state, (pollAux c env eid (attempts + 1) fuel).2) := by
            rw [← hfst]
          exact ih (attempts + 1) state _ hp

/-! ## Claims -/

/-- C1 (code bug evidence): for `testMode = false` the submission POST goes
to the literal path `/workflow/:slug` — the `:slug` placeholder is never
substituted with the actual slug (here `"demo"`), contradicting the spec's
"production execution endpoint, parameterized by `slug`". -/
theorem prod_submit_url_not_parameterized :
    (OpenFlow.executeWorkflow demoClient envCompletedAt2 "demo" (Json.obj [])
        none false).2 =
      [NetCall.post ("http://localhost:3000" ++ "/workflow/:slug") true none
        [("slug", Json.str "demo"), ("input", Json.obj [])]] ∧
    ("http://localhost:3000" ++ "/workflow/:slug") ≠
      ("http://localhost:3000" ++ "/workflow/" ++ "demo") := by
  exact ⟨rfl, by decide⟩

/-- C2 (counterexample): with `testMode = false` the submission body still
contains the `slug` field — it is not the claimed `{input}`-only body. -/
theorem prod_submit_body_contains_slug_cex :
    (OpenFlow.executeWorkflow demoClient envCompletedAt2 "demo" (Json.obj [])
        none false).2.map NetCall.body =
      [[("slug", Json.str "demo"), ("input", Json.obj [])]] ∧
    [(("slug" : String), Json.str "demo"), (("input" : String), Json.obj [])] ≠
      [(("input" : String), Json.obj [])] := by
  refine ⟨rfl, fun h => ?_⟩
  exact absurd (congrArg List.length h) (by decide)

/-- C2 (amended): for every submission — test or production mode alike —
the JSON body of the single POST is `{slug, input}`. -/
theorem submit_body_always_slug_input (c : OpenFlow) (env : Env)
    (slug : String) (input : Json) (xPayment : Option String)
    (testMode : Bool) :
    (c.executeWorkflow env slug input xPayment testMode).2.map NetCall.body =
      [[("slug", Json.str slug), ("input", input)]] := by
  by_cases h : c.x402Fetch <;>
    simp [OpenFlow.executeWorkflow, submitCall, NetCall.body, h]

/-- C3: a client constructed without a `privateKey`, called with a config
carrying no `xPayment`, fails immediately with the configuration error and
issues zero network calls. -/
theorem run_no_payment_configuration_error (o : Options) (env : Env)
    (slug : String) (cfg : RunConfig)
    (hkey : o.privateKey = none) (hxp : cfg.xPayment = none) :
    (OpenFlow.create o).run env slug cfg =
      (.error (.configurationError
        ("Either privateKey must be provided in OpenFlow constructor or " ++
         "xPayment header must be provided in config")), []) := by
  have h1 : truthy (OpenFlow.create o).privateKey = false := by
    simp [OpenFlow.create, jsOrNull, hkey, truthy]
  have h2 : truthy cfg.xPayment = false := by simp [hxp, truthy]
  simp [OpenFlow.run, h1, h2]

/-- Witness for C3 at a concrete keyless client and empty config. -/
theorem run_no_payment_configuration_error_witness :
    OpenFlow.run (OpenFlow.create {}) envAllProcessing "demo" {} =
      (.error (.configurationError
        ("Either privateKey must be provided in OpenFlow constructor or " ++
         "xPayment header must be provided in config")), []) :=
  run_no_payment_configuration_error {} envAllProcessing "demo" {} rfl rfl

/-- C8: `getState` issues exactly one GET (to the workflow-state URL, a
request that carries no `X-Payment` header), its outcome is the one-shot
query outcome — identical whatever `privateKey`/`x402Fetch` the client was
configured with, with no payment-precondition check — and it never loops:
the trace is one call regardless of the returned status. -/
theorem getState_single_get_no_payment (c : OpenFlow) (pk : Option String)
    (b : Bool) (r : StateResp) (eid : String) :
    OpenFlow.getState { c with privateKey := pk, x402Fetch := b } r eid =
      (queryOutcome r, [NetCall.get (c.baseUrl ++ "/workflow-state/" ++ eid)]) := by
  rfl

/-- C10: falsy constructor options are silently replaced by the defaults
(`0 → 2000`, `0 → 150`, `"" →` production URL), and truthy options are
kept as given. -/
theorem create_falsy_defaults (pk : Option String) (s : String) (n m : Nat)
    (hs : s ≠ "") (hn : n ≠ 0) (hm : m ≠ 0) :
    ((OpenFlow.create
        { privateKey := pk, baseUrl := some "",
          pollInterval := some 0, maxPollAttempts := some 0 }).baseUrl =
          "https://workflow-api.openflow.sh" ∧
     (OpenFlow.create
        { privateKey := pk, baseUrl := some "",
          pollInterval := some 0, maxPollAttempts := some 0 }).pollInterval = 2000 ∧
     (OpenFlow.create
        { privateKey := pk, baseUrl := some "",
          pollInterval := some 0, maxPollAttempts := some 0 }).maxPollAttempts = 150) ∧
    ((OpenFlow.create
        { privateKey := pk, baseUrl := some s,
          pollInterval := some n, maxPollAttempts := some m }).baseUrl = s ∧
     (OpenFlow.create
        { privateKey := pk, baseUrl := some s,
          pollInterval := some n, maxPollAttempts := some m }).pollInterval = n ∧
     (OpenFlow.create
        { privateKey := pk, baseUrl := some s,
          pollInterval := some n, maxPollAttempts := some m }).maxPollAttempts = m) := by
  refine ⟨⟨?_, ?_, ?_⟩, ?_, ?_, ?_⟩ <;>
    simp [OpenFlow.create, jsOrStr, jsOrNat, hs, hn, hm]

/-- Witness for C10 at concrete truthy values. -/
theorem create_falsy_defaults_witness :
    ((OpenFlow.create
        { privateKey := none, baseUrl := some "",
          pollInterval := some 0, maxPollAttempts := some 0 }).baseUrl =
          "https://workflow-api.openflow.sh" ∧
     (OpenFlow.create
        { privateKey := none, baseUrl := some "",
          pollInterval := some 0, maxPollAttempts := some 0 }).pollInterval = 2000 ∧
     (OpenFlow.create
        { privateKey := none, baseUrl := some "",
          pollInterval := some 0, maxPollAttempts := some 0 }).maxPollAttempts = 150) ∧
    ((OpenFlow.create
        { privateKey := none, baseUrl := some "http://localhost:3000",
          pollInterval := some 5, maxPollAttempts := some 7 }).baseUrl =
          "http://localhost:3000" ∧
     (OpenFlow.create
        { privateKey := none, baseUrl := some "http://localhost:3000",
          pollInterval := some 5, maxPollAttempts := some 7 }).pollInterval = 5 ∧
     (OpenFlow.create
        { privateKey := none, baseUrl := some "http://localhost:3000",
          pollInterval := some 5, maxPollAttempts := some 7 }).maxPollAttempts = 7) :=
  create_falsy_defaults none "http://localhost:3000" 5 7
    (by decide) (by decide) (by decide)

/-- C4: when the polled sequence first reaches a terminal status at attempt
`k` (`1 ≤ k ≤ maxPollAttempts`) and that status is `"completed"`, `run`
returns a `WorkflowResult` taking `output`/`ipfsCid`/`completedTime` from
the final polled state and `executionId`/`workflowId`/`pieceCid`/`provider`
from the submission, after exactly one submission POST plus `k` status
queries. -/
theorem run_completed_at_k (c : OpenFlow) (env : Env) (slug : String)
    (cfg : RunConfig) (k : Nat)
    (hpay : truthy c.privateKey = true ∨ truthy cfg.xPayment = true)
    (hs1 : env.submitResp.ok = true) (hs2 : env.submitResp.success = true)
    (hk : 1 ≤ k) (hmax : k ≤ c.maxPollAttempts)
    (hpre : ∀ i, 1 ≤ i → i < k → respOkNonTerminal (env.stateResps i))
    (h1 : (env.stateResps k).ok = true) (h2 : (env.stateResps k).success = true)
    (h3 : (env.stateResps k).status = "completed") :
    c.run env slug cfg =
      (.ok { executionId := env.submitResp.executionId
             workflowId := env.submitResp.workflowId
             status := "completed"
             output := (env.stateResps k).data.output
             ipfsCid := (env.stateResps k).ipfsCid
             pieceCid := env.submitResp.pieceCid
             provider := env.submitResp.provider
             completedTime := (env.stateResps k).data.completedTime },
       submitCall c slug (runInput cfg) cfg.xPayment (runTestMode cfg) ::
         List.replicate k (queryCall c env.submitResp.executionId)) := by
  have hcond : (!(truthy c.privateKey) && !(truthy cfg.xPayment)) = false := by
    rcases hpay with h | h <;> simp [h]
  have hsub : submitOutcome env.submitResp = .ok
      { executionId := env.submitResp.executionId,
        workflowId := env.submitResp.workflowId,
        ipfsCid := env.submitResp.ipfsCid,
        pieceCid := env.submitResp.pieceCid,
        provider := env.submitResp.provider,
        status := env.submitResp.status } := by
    simp [submitOutcome, hs1, hs2]
  have hpoll := pollForCompletion_completed_at c env env.submitResp.executionId
      k hk hmax hpre h1 h2 h3
  simp only [OpenFlow.run, OpenFlow.executeWorkflow, hcond, Bool.false_eq_true,
    if_false, hsub, hpoll]
  simp [stateOfResp, h3]

/-- Witness for C4: the spec's concrete scenario — poll 1 `"processing"`,
poll 2 `"completed"` with output `{"y": 2}` — resolves after 1 POST and
exactly 2 GETs. -/
theorem run_completed_at_k_witness :
    OpenFlow.run demoClient envCompletedAt2 "demo" {} =
      (.ok { executionId := "e1", workflowId := "wf1", status := "completed",
             output := Json.obj [("y", Json.num 2)], ipfsCid := "cid-done",
             pieceCid := "piece1", provider := "prov1", completedTime := "t9" },
       NetCall.post "http://localhost:3000/test-workflow" true none
           [("slug", Json.str "demo"), ("input", Json.obj [])] ::
         List.replicate 2 (NetCall.get "http://localhost:3000/workflow-state/e1")) :=
  run_completed_at_k demoClient envCompletedAt2 "demo" {} 2
    (Or.inl (by decide)) rfl rfl (by omega) (by decide)
    (by
      intro i hi1 hi2
      have hi : i = 1 := by omega
      subst hi
      exact ⟨rfl, rfl, by decide, by decide⟩)
    rfl rfl rfl

/-- C5: when the polled sequence reaches `"failed"` at attempt `k` (all
earlier attempts non-terminal), the poll loop fails at attempt `k` with an
execution error carrying the state's `data.error`, and exactly `k` status
queries were made — none after attempt `k`. -/
theorem poll_failed_at_k (c : OpenFlow) (env : Env) (eid : String) (k : Nat)
    (hk : 1 ≤ k) (hmax : k ≤ c.maxPollAttempts)
    (hpre : ∀ i, 1 ≤ i → i < k → respOkNonTerminal (env.stateResps i))
    (h1 : (env.stateResps k).ok = true) (h2 : (env.stateResps k).success = true)
    (h3 : (env.stateResps k).status = "failed") :
    c.pollForCompletion env eid =
      (.error (.executionError
        ("Workflow execution failed: " ++
         jsOrElse (env.stateResps k).data.error "Unknown error")),
       List.replicate k (queryCall c eid)) :=
  pollForCompletion_failed_at c env eid k hk hmax hpre h1 h2 h3

/-- Witness for C5: the spec's concrete scenario — poll 1 `"failed"` with
`data.error = "bad input"` — fails after exactly 1 query with the message
containing `"bad input"`. -/
theorem poll_failed_at_k_witness :
    OpenFlow.pollForCompletion demoClient envFailedAt1 "e1" =
      (.error (.executionError "Workflow execution failed: bad input"),
       List.replicate 1 (NetCall.get "http://localhost:3000/workflow-state/e1")) :=
  poll_failed_at_k demoClient envFailedAt1 "e1" 1 (by omega) (by decide)
    (fun i hi1 hi2 => absurd hi2 (by omega)) rfl rfl rfl

/-- C6: when no attempt among `1..maxPollAttempts` returns a terminal
status (any non-`"completed"`/`"failed"` string keeps the loop going), the
poll loop makes exactly `maxPollAttempts` queries and fails with a timeout
error whose message names `maxPollAttempts`. -/
theorem poll_timeout_after_max (c : OpenFlow) (env : Env) (eid : String)
    (hpre : ∀ i, 1 ≤ i → i ≤ c.maxPollAttempts →
      respOkNonTerminal (env.stateResps i)) :
    c.pollForCompletion env eid =
      (.error (.timeoutError
        ("Workflow execution timeout after " ++ toString c.maxPollAttempts ++
         " attempts")),
       List.replicate c.maxPollAttempts (queryCall c eid)) :=
  pollForCompletion_timeout c env eid hpre

/-- Witness for C6: the spec's concrete scenario — `maxAttempts = 3`,
every poll `"processing"` — times out mentioning 3, after exactly 3
queries. -/
theorem poll_timeout_after_max_witness :
    OpenFlow.pollForCompletion demoClient envAllProcessing "e1" =
      (.error (.timeoutError "Workflow execution timeout after 3 attempts"),
       List.replicate 3 (NetCall.get "http://localhost:3000/workflow-state/e1")) :=
  poll_timeout_after_max demoClient envAllProcessing "e1"
    (by
      intro i hi1 hi2
      show respOkNonTerminal processingResp
      exact ⟨rfl, rfl, by decide, by decide⟩)

/-- C7: a status query at attempt `k` that yields a non-success HTTP status
(a transport error) or a `success = false` payload (an execution error)
propagates out of the poll loop at once: the whole `run` aborts with that
error after exactly `k` queries, with no retry and no further attempts. -/
theorem run_query_error_aborts (c : OpenFlow) (env : Env) (slug : String)
    (cfg : RunConfig) (k : Nat) (e : OFError)
    (hpay : truthy c.privateKey = true ∨ truthy cfg.xPayment = true)
    (hs1 : env.submitResp.ok = true) (hs2 : env.submitResp.success = true)
    (hk : 1 ≤ k) (hmax : k ≤ c.maxPollAttempts)
    (hpre : ∀ i, 1 ≤ i → i < k → respOkNonTerminal (env.stateResps i))
    (herr : queryOutcome (env.stateResps k) = .error e) :
    (c.run env slug cfg =
      (.error e,
       submitCall c slug (runInput cfg) cfg.xPayment (runTestMode cfg) ::
         List.replicate k (queryCall c env.submitResp.executionId))) ∧
    ((env.stateResps k).ok = false → ∃ m, e = .transportError m) ∧
    ((env.stateResps k).ok = true → (env.stateResps k).success = false →
      ∃ m, e = .executionError m) := by
  refine ⟨?_, ?_, ?_⟩
  · have hcond : (!(truthy c.privateKey) && !(truthy cfg.xPayment)) = false := by
      rcases hpay with h | h <;> simp [h]
    have hsub : submitOutcome env.submitResp = .ok
        { executionId := env.submitResp.executionId,
          workflowId := env.submitResp.workflowId,
          ipfsCid := env.submitResp.ipfsCid,
          pieceCid := env.submitResp.pieceCid,
          provider := env.submitResp.provider,
          status := env.submitResp.status } := by
      simp [submitOutcome, hs1, hs2]
    have hpoll := pollForCompletion_query_error_at c env
        env.submitResp.executionId k e hk hmax hpre herr
    simp only [OpenFlow.run, OpenFlow.executeWorkflow, hcond, Bool.false_eq_true,
      if_false, hsub, hpoll]
    simp
  · intro hok
    have hq : queryOutcome (env.stateResps k) = .error (.transportError
        ("Failed to get workflow state: " ++
         toString (env.stateResps k).httpStatus ++ " - " ++
         (env.stateResps k).errorText)) := by
      simp [queryOutcome, hok]
    rw [hq] at herr
    injection herr with h
    exact ⟨_, h.symm⟩
  · intro hok hsf
    have hq : queryOutcome (env.stateResps k) = .error (.executionError
        ("Failed to get workflow state: " ++
         jsOrElse (env.stateResps k).error "Unknown error")) := by
      simp [queryOutcome, hok, hsf]
    rw [hq] at herr
    injection herr with h
    exact ⟨_, h.symm⟩

/-- Witness for C7: poll 1 `"processing"`, poll 2 an HTTP 500 — the run
aborts with the transport error after exactly 2 queries. -/
theorem run_query_error_aborts_witness :
    (OpenFlow.run demoClient envBadHttpAt2 "demo" {} =
      (.error (.transportError "Failed to get workflow state: 500 - boom"),
       NetCall.post "http://localhost:3000/test-workflow" true none
           [("slug", Json.str "demo"), ("input", Json.obj [])] ::
         List.replicate 2 (NetCall.get "http://localhost:3000/workflow-state/e1"))) ∧
    ((envBadHttpAt2.stateResps 2).ok = false →
      ∃ m, OFError.transportError "Failed to get workflow state: 500 - boom" =
        .transportError m) ∧
    ((envBadHttpAt2.stateResps 2).ok = true →
      (envBadHttpAt2.stateResps 2).success = false →
      ∃ m, OFError.transportError "Failed to get workflow state: 500 - boom" =
        .executionError m) :=
  run_query_error_aborts demoClient envBadHttpAt2 "demo" {} 2
    (.transportError "Failed to get workflow state: 500 - boom")
    (Or.inl (by decide)) rfl rfl (by omega) (by decide)
    (by
      intro i hi1 hi2
      have hi : i = 1 := by omega
      subst hi
      exact ⟨rfl, rfl, by decide, by decide⟩)
    rfl

/-- The poll loop only ever returns a state whose status is exactly
`"completed"`. -/
theorem pollForCompletion_ok_completed (c : OpenFlow) (env : Env)
    (eid : String) (state : WorkflowState)
    (h : (c.pollForCompletion env eid).1 = .ok state) :
    state.status = "completed" := by
  have hp : c.pollForCompletion env eid =
      (.ok state, (c.pollForCompletion env eid).2) := by
    rw [← h]
  exact pollAux_ok_completed c env eid c.maxPollAttempts 0 state _ hp

/-- C9: every `WorkflowResult` that `run` returns has status exactly
`"completed"` — any failed status or attempt exhaustion errors out before
a result is built. -/
theorem run_ok_result_status_completed (c : OpenFlow) (env : Env)
    (slug : String) (cfg : RunConfig) (r : WorkflowResult) (t : List NetCall)
    (h : c.run env slug cfg = (.ok r, t)) : r.status = "completed" := by
  simp only [OpenFlow.run] at h
  split at h
  · simp at h
  · split at h
    · simp at h
    · split at h
      · simp at h
      · injection h with h1 h2
        injection h1 with hr
        rw [← hr]
        exact pollForCompletion_ok_completed c env _ _ (by assumption)

/-- Witness for C9 at the concrete completed scenario. -/
theorem run_ok_result_status_completed_witness :
    ({ executionId := "e1", workflowId := "wf1", status := "completed",
       output := Json.obj [("y", Json.num 2)], ipfsCid := "cid-done",
       pieceCid := "piece1", provider := "prov1",
       completedTime := "t9" } : WorkflowResult).status = "completed" :=
  run_ok_result_status_completed demoClient envCompletedAt2 "demo" {}
    { executionId := "e1", workflowId := "wf1", status := "completed",
      output := Json.obj [("y", Json.num 2)], ipfsCid := "cid-done",
      pieceCid := "piece1", provider := "prov1", completedTime := "t9" }
    (NetCall.post "http://localhost:3000/test-workflow" true none
        [("slug", Json.str "demo"), ("input", Json.obj [])] ::
      List.replicate 2 (NetCall.get "http://localhost:3000/workflow-state/e1"))
    rfl
